import Mathlib

/-!
# Verification of the plugin supervision subsystem (toru-steering-center)

Shallow embedding of the parts of the supervisor that the checked claims
touch, translated from the Rust sources:

* `src/toru-plugin-api/src/protocol.rs` — the length-prefixed frame codec
  (`PluginProtocol::read_message` / `write_message`);
* `src/src/services/plugins.rs` — metadata validation
  (`read_plugin_metadata`), the registry (`PluginProcess`), lifecycle
  operations (`spawn_plugin`, `kill_plugin`, `disable_plugin`), crash
  recovery (`increment_restart_count`, `should_disable_plugin`,
  `restart_plugin_with_backoff`), route resolution
  (`get_plugin_for_route`) and HTTP forwarding (`forward_http_request`);
* `src/src/routes/plugins.rs` — the route handler `forward_to_plugin`.

Filesystem and process effects are modelled explicitly: the set of
existing socket files is a list of paths carried in the supervisor state,
the enable-map file is an association list, the child handle is an
`Option Unit`, and the per-request socket I/O of the forwarder is a
parameter of type `IoOutcome`.  JSON values are modelled by the `Json`
inductive below (integer numerics only; no code path the claims touch
depends on non-integer numbers or on arrays in a way that matters).
The crate `toru-plugin-api/src/types.rs` is not part of the provided
sources; where its content is needed (the serialized shape of the
envelope) definitions are modelled from the spec and say so.
-/

/-! ## JSON values (model of serde_json::Value, integer numerics) -/

/-- A JSON value, as manipulated through `serde_json::Value` in the source.
Numbers are modelled as integers: every extraction the embedded code
performs (`as_u64`, `as_str`, map deserialization) is `None` on
non-integer numbers anyway. -/
inductive Json where
  | null : Json
  | bool : Bool → Json
  | num : Int → Json
  | str : String → Json
  | arr : List Json → Json
  | obj : List (String × Json) → Json

/-- `Value::get(key)` on an object: the value bound to `key`, `none` on
non-objects and missing keys. -/
def Json.get : Json → String → Option Json
  | Json.obj kvs, key => List.lookup key kvs
  | _, _ => none

/-- `Value::as_u64`: `some` exactly for integers representable as `u64`. -/
def Json.asU64 : Json → Option Nat
  | Json.num n => if 0 ≤ n ∧ n < 18446744073709551616 then some n.toNat else none
  | _ => none

/-- `Value::as_str`. -/
def Json.asStr : Json → Option String
  | Json.str s => some s
  | _ => none

/-- `serde_json::from_value::<HashMap<String, String>>`: succeeds exactly
on objects all of whose values are strings. -/
def Json.asStringMap : Json → Option (List (String × String))
  | Json.obj kvs => kvs.mapM (fun kv => (Json.asStr kv.2).map (fun s => (kv.1, s)))
  | _ => none

/-! ## Frame codec — `toru-plugin-api/src/protocol.rs` -/

/-- `MAX_MESSAGE_SIZE`: 16 MiB, the hard cap of the decoder. -/
def MAX_MESSAGE_SIZE : Nat := 16 * 1024 * 1024

/-- Model of `PluginError` (from the api crate's error type): a protocol
error carrying its message, or an I/O failure (here: a short read). -/
inductive PluginError where
  | protocol : String → PluginError
  | ioShortRead : PluginError
deriving DecidableEq, Repr

/-- Read a big-endian `u32` from the first four bytes of the stream
(`read_exact` into `length_buf` + `u32::from_be_bytes`). -/
def readU32BE : List Nat → Option (Nat × List Nat)
  | b0 :: b1 :: b2 :: b3 :: rest => some (((b0 * 256 + b1) * 256 + b2) * 256 + b3, rest)
  | _ => none

/-- The big-endian byte encoding of a `u32` (`u32::to_be_bytes`); the
argument is reduced mod 2^32 byte-by-byte, matching the `as u32` cast at
the call site in `write_message`. -/
def u32be (n : Nat) : List Nat :=
  [n / 16777216 % 256, n / 65536 % 256, n / 256 % 256, n % 256]

/-- The framing phase of `PluginProtocol::read_message`: read the 4-byte
big-endian length prefix; reject lengths above `MAX_MESSAGE_SIZE` with a
protocol error before the payload buffer is allocated; otherwise read
exactly `length` payload bytes.  The final `serde_json::from_slice` parse
of the payload is outside this definition. -/
def read_frame (input : List Nat) : Except PluginError (List Nat) :=
  match readU32BE input with
  | none => Except.error PluginError.ioShortRead
  | some lr =>
    if lr.1 > MAX_MESSAGE_SIZE then
      Except.error (PluginError.protocol
        ("Message size " ++ toString lr.1 ++ " exceeds maximum allowed size "
          ++ toString MAX_MESSAGE_SIZE))
    else if lr.2.length < lr.1 then Except.error PluginError.ioShortRead
    else Except.ok (lr.2.take lr.1)

/-- `PluginProtocol::write_message` on an already-serialized message: the
`u32` big-endian length prefix (`json.len() as u32`) followed by the JSON
bytes. -/
def write_message (json : List Nat) : List Nat :=
  u32be json.length ++ json

/-- Whether a decode result is a protocol error. -/
def isProtocolError : Except PluginError (List Nat) → Bool
  | Except.error (PluginError.protocol _) => true
  | _ => false

/-- The bytes `send_init_message` puts on the plugin socket
(`stream.write_all(json.as_bytes())` in `services/plugins.rs`): the raw
serialized JSON, with no length prefix. -/
def send_init_bytes (json : List Nat) : List Nat := json

/-- The UTF-8 bytes of an ASCII string. -/
def strBytes (s : String) : List Nat := s.toList.map Char.toNat

/-- Modelled from the spec: the serialized lifecycle init envelope
(`Message::new_lifecycle("init", Some(payload))`; the `types.rs` of the
api crate is not among the provided sources).  Per §3 of the spec the
envelope is a JSON object whose first key is `message_type`; only its
leading bytes matter to the framing theorems, so the payload fields are
abbreviated here. -/
def init_message_json : String :=
  "\x7b\"message_type\":\"lifecycle\",\"payload\":\x7b\"action\":\"init\"\x7d\x7d"

/-! ## Plugin metadata and the probe's validation — `read_plugin_metadata` -/

/-- `PluginMetadata` as declared by plugins (fields per the spec's data
model and the uses in `services/plugins.rs` and the example plugin). -/
structure PluginMetadata where
  id : String
  name : String
  version : String
  author : Option String
  icon : String
  route : String
deriving DecidableEq, Repr

/-- The character class of the id check:
`c.is_ascii_alphanumeric() || c == '-'`. -/
def isValidIdChar (c : Char) : Bool := c.isAlphanum || c == '-'

/-- Containment of a character sequence (Rust `str::contains(pattern)`). -/
def containsSeq (pat : List Char) : List Char → Bool
  | [] => pat.isEmpty
  | c :: t => pat.isPrefixOf (c :: t) || containsSeq pat t

/-- The validation step of `read_plugin_metadata`, applied to the parsed
metadata object (the execution of the binary and the JSON parse are
upstream of it): id charset, route shape, and name/author byte lengths,
in source order.  Note what the source does not check: id emptiness and
the `version` length. -/
def read_plugin_metadata_validate (m : PluginMetadata) : Except String PluginMetadata :=
  if !(m.id.toList.all isValidIdChar) then Except.error "Invalid plugin ID format"
  else if !(m.route.toList.head? == some '/') || containsSeq ['.', '.'] m.route.toList then
    Except.error "Invalid plugin route"
  else if decide (m.name.utf8ByteSize > 100)
      || (m.author.map (fun a => decide (a.utf8ByteSize > 100))).getD false then
    Except.error "Metadata field too long"
  else Except.ok m

/-- Whether the probe accepts a metadata object. -/
def metadata_accepted (m : PluginMetadata) : Bool :=
  match read_plugin_metadata_validate m with
  | Except.ok _ => true
  | Except.error _ => false

/-- The sequence of metadata objects that survive validation during one
scan of the plugins directory (`scan_plugins_directory`): each candidate
is validated, failures are logged and skipped, and the scan continues
with the rest. -/
def scan_validated (ms : List PluginMetadata) : List PluginMetadata :=
  ms.foldl
    (fun acc m =>
      match read_plugin_metadata_validate m with
      | Except.ok m2 => acc ++ [m2]
      | Except.error _ => acc)
    []

/-- The acceptance predicate exactly as the claim states it (refinement
reference, written from the claim's words, to be compared with
`read_plugin_metadata_validate`): non-empty id of ASCII alphanumerics and
hyphens, route starting with a slash and free of dot-dot, and name,
version and author (when present) each at most 100 characters. -/
def claim_metadata_valid (m : PluginMetadata) : Bool :=
  (!m.id.toList.isEmpty && m.id.toList.all isValidIdChar)
    && (m.route.toList.head? == some '/') && !containsSeq ['.', '.'] m.route.toList
    && m.name.toList.length ≤ 100
    && m.version.toList.length ≤ 100
    && (match m.author with | some a => a.toList.length ≤ 100 | none => true)

/-! ## Registry state and lifecycle operations — `services/plugins.rs` -/

/-- A registry row (`PluginProcess`): the child handle is modelled by its
presence. -/
structure PluginProcess where
  id : String
  process : Option Unit
  socket_path : String
  enabled : Bool
  metadata : Option PluginMetadata
  pid : Option Nat
deriving DecidableEq, Repr

/-- The supervisor state the claims touch: the registry, the restart
counters, the `max_restarts` construction parameter, the on-disk enable
map (`.metadata/config.json`, modelled as the association list it
encodes) and the set of existing socket files. -/
structure Supervisor where
  plugins : List (String × PluginProcess)
  restart_counts : List (String × Nat)
  max_restarts : Nat
  enable_map : List (String × Bool)
  sockets : List String
deriving DecidableEq, Repr

/-- A lifecycle event as fanned out by `notify_plugin_event`; of the
details JSON only the backoff delay matters to the claims, so it is the
one detail carried. -/
structure PluginEvent where
  event_type : String
  delay_ms : Option Nat
deriving DecidableEq, Repr

/-- Update (or append) a binding in an association list: the in-memory
effect of `HashMap::insert` / `entry().or_insert` on the one key. -/
def setAssoc {α : Type} (l : List (String × α)) (k : String) (v : α) : List (String × α) :=
  match l with
  | [] => [(k, v)]
  | (k0, v0) :: rest => if k0 == k then (k, v) :: rest else (k0, v0) :: setAssoc rest k v

/-- `<sockets_dir>/<plugin_id>.sock` with the fixed sockets dir of
`PluginSupervisor::new`. -/
def socket_path_for (pid : String) : String := "/tmp/toru-plugins/" ++ pid ++ ".sock"

/-- `get_restart_count`: the counter, zero when absent. -/
def get_restart_count (st : Supervisor) (pid : String) : Nat :=
  (List.lookup pid st.restart_counts).getD 0

/-- `increment_restart_count`: bump the counter (inserting zero first when
absent) and return the new value. -/
def increment_restart_count (st : Supervisor) (pid : String) : Supervisor × Nat :=
  let count := get_restart_count st pid + 1
  ({ st with restart_counts := setAssoc st.restart_counts pid count }, count)

/-- `should_disable_plugin`: counter at or above `max_restarts`. -/
def should_disable_plugin (st : Supervisor) (pid : String) : Bool :=
  st.max_restarts ≤ get_restart_count st pid

/-- `set_plugin_enabled`: rewrite the enable-map file with the one binding
changed. -/
def set_plugin_enabled (st : Supervisor) (pid : String) (enabled : Bool) : Supervisor :=
  { st with enable_map := setAssoc st.enable_map pid enabled }

/-- `is_plugin_enabled`: the enable-map entry, default true when the file
or the key is missing. -/
def is_plugin_enabled (st : Supervisor) (pid : String) : Bool :=
  (List.lookup pid st.enable_map).getD true

/-- `spawn_plugin`: remove any stale socket, spawn (the fresh OS pid is
the `newPid` parameter), insert or replace the registry row with
`enabled = true` and the child handle present, and emit a `started`
event.  The spawned process has not yet created its socket, so the
socket set gains nothing here. -/
def spawn_plugin (st : Supervisor) (pid : String) (metadata : PluginMetadata)
    (newPid : Option Nat) : Supervisor × List PluginEvent :=
  let sp := socket_path_for pid
  let row : PluginProcess :=
    { id := pid, process := some (), socket_path := sp, enabled := true,
      metadata := some metadata, pid := newPid }
  ({ st with plugins := setAssoc st.plugins pid row,
             sockets := st.sockets.filter (fun s => s ≠ sp) },
   [{ event_type := "started", delay_ms := none }])

/-- `kill_plugin`: fail when the id has no registry row; otherwise take
the child handle (kill signal, bounded wait), remove the socket file,
set `enabled := false` on the row — leaving `pid` as it was — and emit a
`killed` event.  The row itself stays in the registry. -/
def kill_plugin (st : Supervisor) (pid : String) :
    Supervisor × Except String (List PluginEvent) :=
  match List.lookup pid st.plugins with
  | none => (st, Except.error "Plugin not found")
  | some p =>
    let p1 := { p with process := none, enabled := false }
    ({ st with plugins := setAssoc st.plugins pid p1,
               sockets := st.sockets.filter (fun s => s ≠ p.socket_path) },
     Except.ok [{ event_type := "killed", delay_ms := none }])

/-- `disable_plugin`: persist `enabled = false` in the enable map, then
kill; on success a `disabled` event follows the kill's events.  The
enable-map write survives a kill failure (the `?` in the source
propagates after `set_plugin_enabled` has run). -/
def disable_plugin (st : Supervisor) (pid : String) :
    Supervisor × Except String (List PluginEvent) :=
  let st0 := set_plugin_enabled st pid false
  match kill_plugin st0 pid with
  | (st1, Except.error e) => (st1, Except.error e)
  | (st1, Except.ok evs) =>
    (st1, Except.ok (evs ++ [{ event_type := "disabled", delay_ms := none }]))

/-! ## Crash recovery — `restart_plugin_with_backoff` -/

/-- The outcome of one pass of the crash-recovery step. -/
inductive RestartResult where
  | disabledAfterMax : Nat → RestartResult
  | restarted : Nat → Nat → RestartResult
deriving DecidableEq, Repr

/-- The events carried in a `disable_plugin` result, empty on failure. -/
def events_of : Except String (List PluginEvent) → List PluginEvent
  | Except.ok evs => evs
  | Except.error _ => []

/-- `restart_plugin_with_backoff`: increment the counter; when the new
count reaches `max_restarts`, emit `disabled_after_max_restarts`, disable
the plugin and stop (the source returns `Err` there — no respawn either
way); otherwise compute `delay_ms = 2^min(count, 4) * 1000`, emit
`restarting_with_backoff` carrying the delay, sleep, and respawn (which
emits `started`).  The init message after the respawn and a spawn failure
(which would propagate without a `started` event) are outside the
claims.  Result: the final state, the emitted events in order, and which
branch ran with the new count (and the delay, on the restart branch). -/
def restart_plugin_with_backoff (st : Supervisor) (pid : String)
    (metadata : PluginMetadata) (newPid : Option Nat) :
    Supervisor × List PluginEvent × RestartResult :=
  let ic := increment_restart_count st pid
  let st1 := ic.1
  let restart_count := ic.2
  if should_disable_plugin st1 pid then
    let d := disable_plugin st1 pid
    (d.1,
     { event_type := "disabled_after_max_restarts", delay_ms := none } :: events_of d.2,
     RestartResult.disabledAfterMax restart_count)
  else
    let delay_ms := 2 ^ min restart_count 4 * 1000
    let sp := spawn_plugin st1 pid metadata newPid
    (sp.1,
     { event_type := "restarting_with_backoff", delay_ms := some delay_ms } :: sp.2,
     RestartResult.restarted restart_count delay_ms)

/-! ## HTTP forwarding — `forward_http_request` and `forward_to_plugin` -/

/-- The outcome of the forwarder's socket round trip, which is real I/O
in the source: connecting, writing the frame and reading the reply can
each fail, the 30-second deadline can elapse, or a response message is
decoded (carried here as its `serde_json` value). -/
inductive IoOutcome where
  | connectFailed : IoOutcome
  | writeFailed : IoOutcome
  | timeout : IoOutcome
  | readFailed : IoOutcome
  | response : Json → IoOutcome

/-- The error cases of `forward_http_request`, one per `anyhow` bail site
in source order. -/
inductive ForwardError where
  | pluginNotFound : ForwardError
  | notEnabled : ForwardError
  | socketMissing : ForwardError
  | connectFailed : ForwardError
  | writeFailed : ForwardError
  | timeoutAfter30s : ForwardError
  | readFailed : ForwardError
deriving DecidableEq, Repr

/-- The forwarder's reply type (`HttpMessageResponse` of the api crate:
status, headers, optional body). -/
structure HttpMessageResponse where
  status : Nat
  headers : List (String × String)
  body : Option String
deriving DecidableEq, Repr

/-- The field access of the response translation: look inside `payload`,
and when the payload has an `http` key use the nested object, otherwise
the payload itself. -/
def payload_http_field (v : Json) (field : String) : Option Json :=
  (Json.get v "payload").bind (fun p =>
    if (Json.get p "http").isSome then (Json.get p "http").bind (fun h => Json.get h field)
    else Json.get p field)

/-- The translation of a decoded response message into the
`HttpMessageResponse` handed to the route handler (the tail of
`forward_http_request`): status via `as_u64` with default 500 and an
`as u16` cast, headers via map deserialization with default empty, body
via `as_str`. -/
def extract_http_response (v : Json) : HttpMessageResponse :=
  { status := (((payload_http_field v "status").bind Json.asU64).getD 500) % 65536,
    headers := ((payload_http_field v "headers").bind Json.asStringMap).getD [],
    body := (payload_http_field v "body").bind Json.asStr }

/-- `forward_http_request`: look up the registry row; require
`enabled` and an existing socket file; then connect, generate a fresh
`request_id`, write one request frame and await one response frame
(outcome abstracted as `io`); a decoded response is translated by
`extract_http_response`.  The method takes `&self`: the returned state is
the input state, unchanged.  Note: the generated `request_id` is never
compared against the response. -/
def forward_http_request (st : Supervisor) (pid : String) (request_id : String)
    (io : IoOutcome) : Supervisor × Except ForwardError HttpMessageResponse :=
  (st,
   match List.lookup pid st.plugins with
   | none => Except.error ForwardError.pluginNotFound
   | some p =>
     if p.enabled then
       if st.sockets.contains p.socket_path then
         match io with
         | IoOutcome.connectFailed => Except.error ForwardError.connectFailed
         | IoOutcome.writeFailed => Except.error ForwardError.writeFailed
         | IoOutcome.timeout => Except.error ForwardError.timeoutAfter30s
         | IoOutcome.readFailed => Except.error ForwardError.readFailed
         | IoOutcome.response v => Except.ok (extract_http_response v)
       else Except.error ForwardError.socketMissing
     else Except.error ForwardError.notEnabled)

/-- `get_plugin_for_route`: the id of the registry row whose metadata
declares exactly this route, enabled or not. -/
def get_plugin_for_route (st : Supervisor) (route_path : String) : Option String :=
  st.plugins.findSome? (fun kv =>
    match kv.2.metadata with
    | some m => if m.route == route_path then some kv.1 else none
    | none => none)

/-- `str::split_once(c)` on a character list: the part before the first
occurrence and the part after it. -/
def split_once_list (c : Char) : List Char → Option (List Char × List Char)
  | [] => none
  | x :: t =>
    if x == c then some ([], t)
    else (split_once_list c t).map (fun pr => (x :: pr.1, pr.2))

/-- `path.split_once('/')` with the handler's `unwrap_or((&path, ""))`:
the first path segment and the remainder. -/
def split_once_slash (path : String) : String × String :=
  match split_once_list '/' path.toList with
  | some pr => (String.mk pr.1, String.mk pr.2)
  | none => (path, "")

/-- The status-determining skeleton of the route handler
`forward_to_plugin` (routes/plugins.rs): split the wildcard path at the
first slash, reject segments containing dot-dot or a slash with 400,
resolve the route (a miss is 404), forward, map every forwarder error to
502 (`StatusCode::BAD_GATEWAY`), and otherwise answer with the plugin's
status.  The body/header reconstruction and the missing-supervisor 501
are outside the claims. -/
def forward_to_plugin_status (st : Supervisor) (path : String) (request_id : String)
    (io : IoOutcome) : Nat :=
  let seg := (split_once_slash path).1
  if containsSeq ['.', '.'] seg.toList || seg.toList.contains '/' then 400
  else
    match get_plugin_for_route st ("/" ++ seg) with
    | none => 404
    | some pid =>
      match (forward_http_request st pid request_id io).2 with
      | Except.error _ => 502
      | Except.ok resp => resp.status

/-! ## Helper lemmas -/

theorem readU32BE_u32be (n : Nat) (tail : List Nat) :
    readU32BE (u32be n ++ tail) = some (n % 4294967296, tail) := by
  simp only [u32be, readU32BE, List.cons_append, List.nil_append,
    Option.some.injEq, Prod.mk.injEq]
  constructor
  · omega
  · trivial

theorem lookup_setAssoc_self {α : Type} (l : List (String × α)) (k : String) (v : α) :
    List.lookup k (setAssoc l k v) = some v := by
  induction l with
  | nil => simp [setAssoc, List.lookup]
  | cons hd tl ih =>
    obtain ⟨k0, v0⟩ := hd
    by_cases h : k0 = k
    · simp [setAssoc, h, List.lookup]
    · simp only [setAssoc, beq_iff_eq, h, if_false, List.lookup]
      have h2 : (k == k0) = false := by simp [Ne.symm h]
      simp [h2, ih]

theorem lookup_setAssoc_ne {α : Type} (l : List (String × α)) (k k2 : String) (v : α)
    (h : k2 ≠ k) : List.lookup k2 (setAssoc l k v) = List.lookup k2 l := by
  have hb : (k2 == k) = false := by simp [h]
  induction l with
  | nil => simp [setAssoc, List.lookup, hb]
  | cons hd tl ih =>
    obtain ⟨k0, v0⟩ := hd
    by_cases h0 : k0 = k
    · subst h0
      simp only [setAssoc, beq_self_eq_true, if_true, List.lookup]
      have h2 : (k2 == k0) = false := by simp [h]
      simp [h2]
    · simp only [setAssoc, beq_iff_eq, h0, if_false, List.lookup]
      by_cases h3 : k2 = k0
      · simp [h3]
      · have h4 : (k2 == k0) = false := by simp [h3]
        simp [h4, ih]

/-! ## Claims -/

/-- C5: the decoder accepts a declared frame length of exactly 16 MiB and
proceeds to read that many payload bytes, while a declared length of
16 MiB + 1 or more (any value a 4-byte prefix can declare) is rejected
with a protocol error before the payload buffer is allocated — the
rejection does not depend on any byte after the prefix. -/
theorem C5_frame_size_boundary :
    (∀ tail : List Nat, MAX_MESSAGE_SIZE ≤ tail.length →
      read_frame (u32be MAX_MESSAGE_SIZE ++ tail) = Except.ok (tail.take MAX_MESSAGE_SIZE)) ∧
    (∀ declared : Nat, MAX_MESSAGE_SIZE < declared → declared < 4294967296 →
      (∀ tail : List Nat, isProtocolError (read_frame (u32be declared ++ tail)) = true) ∧
      (∀ tail tail2 : List Nat,
        read_frame (u32be declared ++ tail) = read_frame (u32be declared ++ tail2))) := by
  constructor
  · intro tail htail
    rw [read_frame, readU32BE_u32be]
    have hmod : MAX_MESSAGE_SIZE % 4294967296 = MAX_MESSAGE_SIZE := by
      norm_num [MAX_MESSAGE_SIZE]
    rw [hmod]
    simp only [gt_iff_lt, lt_irrefl, if_false]
    have h2 : ¬ tail.length < MAX_MESSAGE_SIZE := by omega
    simp [h2]
  · intro declared h1 h2
    have hmod : declared % 4294967296 = declared := Nat.mod_eq_of_lt h2
    constructor
    · intro tail
      rw [read_frame, readU32BE_u32be, hmod]
      have hgt : declared > MAX_MESSAGE_SIZE := h1
      simp [hgt, isProtocolError]
    · intro tail tail2
      rw [read_frame, readU32BE_u32be, read_frame, readU32BE_u32be, hmod]
      have hgt : declared > MAX_MESSAGE_SIZE := h1
      simp [hgt]

/-- Witness for C5 at the two boundary lengths: a frame declaring exactly
16 MiB with a 16 MiB payload decodes to that payload, and a frame
declaring 16 MiB + 1 is a protocol error with no payload bytes present at
all. -/
theorem C5_frame_size_boundary_witness :
    (MAX_MESSAGE_SIZE ≤ (List.replicate MAX_MESSAGE_SIZE 0).length ∧
      read_frame (u32be MAX_MESSAGE_SIZE ++ List.replicate MAX_MESSAGE_SIZE 0) =
        Except.ok ((List.replicate MAX_MESSAGE_SIZE 0).take MAX_MESSAGE_SIZE)) ∧
    (MAX_MESSAGE_SIZE < MAX_MESSAGE_SIZE + 1 ∧ MAX_MESSAGE_SIZE + 1 < 4294967296 ∧
      isProtocolError (read_frame (u32be (MAX_MESSAGE_SIZE + 1) ++ [])) = true) :=
  ⟨⟨by simp, C5_frame_size_boundary.1 (List.replicate MAX_MESSAGE_SIZE 0) (by simp)⟩,
   ⟨by omega, by norm_num [MAX_MESSAGE_SIZE],
    (C5_frame_size_boundary.2 (MAX_MESSAGE_SIZE + 1) (by omega)
      (by norm_num [MAX_MESSAGE_SIZE])).1 []⟩⟩

/-- C6 (code bug): the lifecycle init message is written to the plugin
socket as raw JSON with no length prefix, so the symmetric codec
(`PluginProtocol::read_message`, used by the bundled example plugin for
every inbound message, init included) cannot decode it: the first four
JSON bytes are misread as a length far above 16 MiB and the decode is a
protocol error, while the same bytes framed by `write_message` decode to
exactly the message. -/
theorem C6_init_not_framed :
    isProtocolError (read_frame (send_init_bytes (strBytes init_message_json))) = true ∧
    read_frame (write_message (strBytes init_message_json)) =
      Except.ok (strBytes init_message_json) ∧
    send_init_bytes (strBytes init_message_json) ≠ write_message (strBytes init_message_json) := by
  refine ⟨by decide, by rfl, by decide⟩

/-- Validation returns the metadata object it was given. -/
theorem validate_ok_eq (m m2 : PluginMetadata)
    (h : read_plugin_metadata_validate m = Except.ok m2) : m2 = m := by
  unfold read_plugin_metadata_validate at h
  split_ifs at h <;> simp_all

/-- Folding the scan's validate-and-collect step appends exactly the
accepted candidates. -/
theorem scan_fold_aux (ms : List PluginMetadata) (acc : List PluginMetadata) :
    ms.foldl
      (fun acc m =>
        match read_plugin_metadata_validate m with
        | Except.ok m2 => acc ++ [m2]
        | Except.error _ => acc)
      acc = acc ++ ms.filter metadata_accepted := by
  induction ms generalizing acc with
  | nil => simp
  | cons hd tl ih =>
    cases h : read_plugin_metadata_validate hd with
    | ok m2 =>
      have hm : m2 = hd := validate_ok_eq hd m2 h
      subst hm
      simp [List.foldl, h, List.filter, metadata_accepted, ih]
    | error e =>
      simp [List.foldl, h, List.filter, metadata_accepted, ih]

/-- C9 (amended): the probe accepts a parsed metadata object iff its id
contains only ASCII alphanumerics and hyphens (emptiness is not
checked), its route starts with a slash and does not contain dot-dot,
its name is at most 100 bytes and its author, when present, at most 100
bytes; the version length is not validated.  A rejected candidate is
skipped and the scan of the remaining candidates continues. -/
theorem C9_validation_rule :
    (∀ m : PluginMetadata,
      metadata_accepted m = true ↔
        (m.id.toList.all isValidIdChar = true ∧
         m.route.toList.head? = some '/' ∧
         containsSeq ['.', '.'] m.route.toList = false ∧
         m.name.utf8ByteSize ≤ 100 ∧
         (m.author.all (fun a => decide (a.utf8ByteSize ≤ 100))) = true)) ∧
    (∀ ms : List PluginMetadata, scan_validated ms = ms.filter metadata_accepted) := by
  constructor
  · intro m
    unfold metadata_accepted read_plugin_metadata_validate
    cases ha : m.author with
    | none =>
      split_ifs with h1 h2 h3
      · simp_all
      · simp_all
        intro hh hc
        rcases h2 with h2 | h2
        · exact absurd hh h2
        · simp [h2] at hc
      · simp_all
      · simp_all
    | some a =>
      split_ifs with h1 h2 h3
      · simp_all
      · simp_all
        intro hh hc
        rcases h2 with h2 | h2
        · exact absurd hh h2
        · simp [h2] at hc
      · simp_all
        intro hname
        rcases h3 with h3 | h3
        · omega
        · exact h3
      · simp_all
  · intro ms
    unfold scan_validated
    simpa using scan_fold_aux ms []

/-- The counterexample metadata for C9: an empty id and a 101-character
version, both accepted by the probe. -/
def mBadC9 : PluginMetadata :=
  { id := "", name := "n", version := String.mk (List.replicate 101 'a'),
    author := none, icon := "", route := "/r" }

/-- A well-formed metadata object used in witnesses. -/
def mGood : PluginMetadata :=
  { id := "hello-plugin-rust", name := "Hello World (Rust)", version := "0.1.0",
    author := some "ToruAI", icon := "", route := "/hello-rust" }

/-- C9 counterexample: the probe accepts a metadata object whose id is
empty and whose version is 101 characters long, which the claim's
acceptance condition rejects. -/
theorem C9_counterexample :
    metadata_accepted mBadC9 = true ∧
    claim_metadata_valid mBadC9 = false ∧
    mBadC9.id.toList.isEmpty = true ∧
    mBadC9.version.toList.length = 101 := by
  refine ⟨by decide, by decide, by decide, by decide⟩

/-- Witness for C9 at concrete inputs: the acceptance equivalence at a
well-formed metadata object, and one scan over a good and a bad
candidate. -/
theorem C9_validation_rule_witness :
    (metadata_accepted mGood = true ↔
      (mGood.id.toList.all isValidIdChar = true ∧
       mGood.route.toList.head? = some '/' ∧
       containsSeq ['.', '.'] mGood.route.toList = false ∧
       mGood.name.utf8ByteSize ≤ 100 ∧
       (mGood.author.all (fun a => decide (a.utf8ByteSize ≤ 100))) = true)) ∧
    scan_validated [mGood] = [mGood].filter metadata_accepted :=
  ⟨C9_validation_rule.1 mGood, C9_validation_rule.2 [mGood]⟩

/-- Evaluation of one crash-recovery pass in terms of the pre-state's
counter. -/
theorem restart_eval (st : Supervisor) (pid : String) (m : PluginMetadata)
    (npid : Option Nat) :
    restart_plugin_with_backoff st pid m npid =
      (let count := get_restart_count st pid + 1
       let st1 : Supervisor := { st with restart_counts := setAssoc st.restart_counts pid count }
       if st.max_restarts ≤ count then
         let d := disable_plugin st1 pid
         (d.1,
          { event_type := "disabled_after_max_restarts", delay_ms := none } :: events_of d.2,
          RestartResult.disabledAfterMax count)
       else
         let delay := 2 ^ min count 4 * 1000
         let sp := spawn_plugin st1 pid m npid
         (sp.1,
          { event_type := "restarting_with_backoff", delay_ms := some delay } :: sp.2,
          RestartResult.restarted count delay)) := by
  simp only [restart_plugin_with_backoff, increment_restart_count, should_disable_plugin,
    get_restart_count, lookup_setAssoc_self, Option.getD_some]
  split_ifs with h1 h2 <;> simp_all

/-- Disabling always records `enabled = false` in the enable map, whether
or not the kill succeeds. -/
theorem disable_enable_map (st : Supervisor) (pid : String) :
    (disable_plugin st pid).1.enable_map = setAssoc st.enable_map pid false := by
  unfold disable_plugin set_plugin_enabled kill_plugin
  cases h : List.lookup pid st.plugins <;> simp [h]

/-- After a (successful or failed) disable, a registry row for the plugin
carries `enabled = false` when the row existed before, and survives with
the flag cleared. -/
theorem disable_row_enabled (st : Supervisor) (pid : String) :
    ((List.lookup pid (disable_plugin st pid).1.plugins).all (fun q => !q.enabled)) = true := by
  unfold disable_plugin set_plugin_enabled kill_plugin
  cases h : List.lookup pid st.plugins with
  | none => simp [h]
  | some p => simp [h, lookup_setAssoc_self]

/-- The events of a disable never include a `started` event. -/
theorem disable_events_no_started (st : Supervisor) (pid : String) :
    { event_type := "started", delay_ms := none } ∉ events_of (disable_plugin st pid).2 := by
  unfold disable_plugin set_plugin_enabled kill_plugin
  cases h : List.lookup pid st.plugins with
  | none => simp [h, events_of]
  | some p => simp [h, events_of]

/-- C3: one crash-recovery pass disables exactly when the incremented
counter reaches `max_restarts`: on the `max_restarts`-th consecutive
crash (pre-state counter `max_restarts − 1`) it emits
`disabled_after_max_restarts`, persists `enabled = false` and clears the
flag on the registry row, and emits no `started` event (no respawn);
on the `(max_restarts − 1)`-th crash (pre-state counter
`max_restarts − 2`) it does not disable and proceeds to restart. -/
theorem C3_disable_threshold (st : Supervisor) (pid : String) (m : PluginMetadata)
    (npid : Option Nat) (hmax : 1 ≤ st.max_restarts) :
    ((∃ c, (restart_plugin_with_backoff st pid m npid).2.2 = RestartResult.disabledAfterMax c) ↔
      st.max_restarts ≤ get_restart_count st pid + 1) ∧
    (get_restart_count st pid = st.max_restarts - 1 →
      (restart_plugin_with_backoff st pid m npid).2.2 =
        RestartResult.disabledAfterMax st.max_restarts ∧
      { event_type := "disabled_after_max_restarts", delay_ms := none } ∈
        (restart_plugin_with_backoff st pid m npid).2.1 ∧
      is_plugin_enabled (restart_plugin_with_backoff st pid m npid).1 pid = false ∧
      ((List.lookup pid (restart_plugin_with_backoff st pid m npid).1.plugins).all
        (fun q => !q.enabled)) = true ∧
      { event_type := "started", delay_ms := none } ∉
        (restart_plugin_with_backoff st pid m npid).2.1) ∧
    (2 ≤ st.max_restarts → get_restart_count st pid = st.max_restarts - 2 →
      (∃ d, (restart_plugin_with_backoff st pid m npid).2.2 =
        RestartResult.restarted (get_restart_count st pid + 1) d) ∧
      { event_type := "disabled_after_max_restarts", delay_ms := none } ∉
        (restart_plugin_with_backoff st pid m npid).2.1) := by
  rw [restart_eval]
  by_cases hd : st.max_restarts ≤ get_restart_count st pid + 1
  · simp only [hd, if_true]
    refine ⟨by simp [hd], ?_, ?_⟩
    · intro hc
      have hcount : get_restart_count st pid + 1 = st.max_restarts := by omega
      refine ⟨by rw [hcount], by simp, ?_, ?_, ?_⟩
      · simp only [is_plugin_enabled, disable_enable_map, lookup_setAssoc_self]
        rfl
      · exact disable_row_enabled _ pid
      · simp only [List.mem_cons]
        push_neg
        refine ⟨by simp, ?_⟩
        exact disable_events_no_started _ pid
    · intro h2 hc
      omega
  · simp only [hd, if_false]
    refine ⟨by simp [hd], ?_, ?_⟩
    · intro hc
      omega
    · intro h2 hc
      refine ⟨⟨2 ^ min (get_restart_count st pid + 1) 4 * 1000, rfl⟩, ?_⟩
      simp [spawn_plugin]

/-- A plugin metadata object used by concrete supervisor states below. -/
def mP : PluginMetadata :=
  { id := "p", name := "P", version := "0.1.0", author := none, icon := "", route := "/p" }

/-- A running, enabled registry row for plugin `p`. -/
def rowP : PluginProcess :=
  { id := "p", process := some (), socket_path := socket_path_for "p", enabled := true,
    metadata := some mP, pid := some 7 }

/-- A supervisor with plugin `p` two crashes in, `max_restarts = 3`. -/
def stC3 : Supervisor :=
  { plugins := [("p", rowP)], restart_counts := [("p", 2)], max_restarts := 3,
    enable_map := [], sockets := [socket_path_for "p"] }

/-- Witness for C3: with `max_restarts = 3` and two prior consecutive
crashes, the third crash disables plugin `p` with the
`disabled_after_max_restarts` event and no respawn; with one prior crash
(the second crash, `max_restarts − 1`), it restarts instead. -/
theorem C3_disable_threshold_witness :
    (1 ≤ stC3.max_restarts ∧ get_restart_count stC3 "p" = stC3.max_restarts - 1) ∧
    (restart_plugin_with_backoff stC3 "p" mP none).2.2 =
      RestartResult.disabledAfterMax stC3.max_restarts ∧
    { event_type := "disabled_after_max_restarts", delay_ms := none } ∈
      (restart_plugin_with_backoff stC3 "p" mP none).2.1 ∧
    is_plugin_enabled (restart_plugin_with_backoff stC3 "p" mP none).1 "p" = false ∧
    ((List.lookup "p" (restart_plugin_with_backoff stC3 "p" mP none).1.plugins).all
      (fun q => !q.enabled)) = true ∧
    { event_type := "started", delay_ms := none } ∉
      (restart_plugin_with_backoff stC3 "p" mP none).2.1 :=
  ⟨⟨by decide, by decide⟩,
   (C3_disable_threshold stC3 "p" mP none (by decide)).2.1 (by decide)⟩

/-- A supervisor with plugin `p` and no prior restarts, `max_restarts = 5`. -/
def stC4 : Supervisor :=
  { plugins := [("p", rowP)], restart_counts := [], max_restarts := 5,
    enable_map := [], sockets := [socket_path_for "p"] }

/-- C4 (code bug): the very first crash of a plugin with no prior
restarts is restarted with `delay_ms = 2000`, not 1000 — the exponent is
the post-increment count capped at 4, so the realized schedule is
2s, 4s, 8s, 16s, 16s, …, never 1s. -/
theorem C4_first_crash_delay :
    (restart_plugin_with_backoff stC4 "p" mP none).2.2 = RestartResult.restarted 1 2000 ∧
    (restart_plugin_with_backoff stC4 "p" mP none).2.1 =
      [{ event_type := "restarting_with_backoff", delay_ms := some 2000 },
       { event_type := "started", delay_ms := none }] ∧
    (2000 : Nat) ≠ 1000 := by
  refine ⟨by decide, by decide, by decide⟩

/-- C8 (amended): for a plugin present in the registry, a successful
kill emits a `killed` event, clears the child handle, sets the row's
`enabled` flag to false, removes the socket file, and retains the row —
id, socket path and metadata unchanged — while the `pid` field is left
as it was (the source never clears it); the restart counters, the enable
map and `max_restarts` are untouched. -/
theorem C8_kill_effects (st : Supervisor) (pid : String) (p : PluginProcess)
    (h : List.lookup pid st.plugins = some p) :
    (kill_plugin st pid).2 = Except.ok [{ event_type := "killed", delay_ms := none }] ∧
    List.lookup pid (kill_plugin st pid).1.plugins =
      some { id := p.id, process := none, socket_path := p.socket_path, enabled := false,
             metadata := p.metadata, pid := p.pid } ∧
    (kill_plugin st pid).1.sockets = st.sockets.filter (fun s => s ≠ p.socket_path) ∧
    (kill_plugin st pid).1.restart_counts = st.restart_counts ∧
    (kill_plugin st pid).1.enable_map = st.enable_map ∧
    (kill_plugin st pid).1.max_restarts = st.max_restarts := by
  unfold kill_plugin
  rw [h]
  refine ⟨rfl, ?_, rfl, rfl, rfl, rfl⟩
  rw [lookup_setAssoc_self]

/-- The state used by the C8 counterexample and witness: plugin `p`
running with OS pid 42. -/
def stC8 : Supervisor :=
  { plugins := [("p", { id := "p", process := some (), socket_path := socket_path_for "p",
                        enabled := true, metadata := some mP, pid := some 42 })],
    restart_counts := [], max_restarts := 5, enable_map := [("p", true)],
    sockets := [socket_path_for "p"] }

/-- C8 counterexample: after a successful kill of a plugin whose row
held `pid = Some 42`, the row still holds `pid = Some 42` — the claim's
`pid = None` fails. -/
theorem C8_counterexample :
    ((List.lookup "p" (kill_plugin stC8 "p").1.plugins).map PluginProcess.pid).getD none
        = some 42 ∧
    ((List.lookup "p" (kill_plugin stC8 "p").1.plugins).map PluginProcess.enabled).getD true
        = false ∧
    some 42 ≠ (none : Option Nat) := by
  refine ⟨by decide, by decide, by decide⟩

/-- Witness for C8 at the concrete state `stC8`. -/
theorem C8_kill_effects_witness :
    List.lookup "p" stC8.plugins =
      some { id := "p", process := some (), socket_path := socket_path_for "p",
             enabled := true, metadata := some mP, pid := some 42 } ∧
    (kill_plugin stC8 "p").2 = Except.ok [{ event_type := "killed", delay_ms := none }] ∧
    List.lookup "p" (kill_plugin stC8 "p").1.plugins =
      some { id := "p", process := none, socket_path := socket_path_for "p",
             enabled := false, metadata := some mP, pid := some 42 } ∧
    (kill_plugin stC8 "p").1.sockets =
      stC8.sockets.filter (fun s => s ≠ socket_path_for "p") :=
  ⟨rfl,
   (C8_kill_effects stC8 "p" _ rfl).1,
   (C8_kill_effects stC8 "p" _ rfl).2.1,
   (C8_kill_effects stC8 "p" _ rfl).2.2.1⟩

/-- On the good path (row present, enabled, socket present) the forwarder
translates a decoded response unconditionally. -/
theorem forward_response_ok (st : Supervisor) (pid rid : String) (p : PluginProcess)
    (v : Json) (h1 : List.lookup pid st.plugins = some p) (h2 : p.enabled = true)
    (h3 : st.sockets.contains p.socket_path = true) :
    forward_http_request st pid rid (IoOutcome.response v) =
      (st, Except.ok (extract_http_response v)) := by
  unfold forward_http_request
  rw [h1]
  simp only [h2, h3]
  rfl

/-- C1 (amended): after writing the request frame the forwarder reads one
response frame and translates it into an HTTP response without ever
consulting the response's `request_id`: the result does not depend on the
`request_id` the forwarder generated, and every decoded response —
one with a mismatched `request_id` included — is translated into a
successful response rather than a protocol error. -/
theorem C1_no_request_id_check (st : Supervisor) (pid rid rid2 : String)
    (p : PluginProcess) (v : Json)
    (h1 : List.lookup pid st.plugins = some p) (h2 : p.enabled = true)
    (h3 : st.sockets.contains p.socket_path = true) :
    forward_http_request st pid rid (IoOutcome.response v) =
      (st, Except.ok (extract_http_response v)) ∧
    forward_http_request st pid rid (IoOutcome.response v) =
      forward_http_request st pid rid2 (IoOutcome.response v) := by
  refine ⟨forward_response_ok st pid rid p v h1 h2 h3, ?_⟩
  rw [forward_response_ok st pid rid p v h1 h2 h3,
    forward_response_ok st pid rid2 p v h1 h2 h3]

/-- A supervisor with plugin `p` enabled, running and with its socket
present, used by the forwarder claims. -/
def stFwd : Supervisor :=
  { plugins := [("p", rowP)], restart_counts := [], max_restarts := 5,
    enable_map := [("p", true)], sockets := [socket_path_for "p"] }

/-- A response envelope whose `request_id` is `"b"` and whose payload
answers 200 with body `"hi"`. -/
def respB : Json :=
  Json.obj [("message_type", Json.str "http"), ("request_id", Json.str "b"),
    ("payload", Json.obj [("status", Json.num 200), ("headers", Json.obj []),
      ("body", Json.str "hi")])]

/-- C1 counterexample: the forwarder generated `request_id` `"a"`, the
response frame carries `request_id` `"b"`, and the call nevertheless
succeeds with the translated 200 response instead of failing with a
protocol error. -/
theorem C1_counterexample :
    Json.get respB "request_id" = some (Json.str "b") ∧
    ("a" : String) ≠ "b" ∧
    (forward_http_request stFwd "p" "a" (IoOutcome.response respB)).2 =
      Except.ok { status := 200, headers := [], body := some "hi" } := by
  refine ⟨rfl, by decide, rfl⟩

/-- Witness for C1 at the concrete state `stFwd` and response `respB`. -/
theorem C1_no_request_id_check_witness :
    List.lookup "p" stFwd.plugins = some rowP ∧ rowP.enabled = true ∧
    stFwd.sockets.contains rowP.socket_path = true ∧
    forward_http_request stFwd "p" "a" (IoOutcome.response respB) =
      (stFwd, Except.ok (extract_http_response respB)) ∧
    forward_http_request stFwd "p" "a" (IoOutcome.response respB) =
      forward_http_request stFwd "p" "other" (IoOutcome.response respB) :=
  ⟨rfl, rfl, by decide,
   (C1_no_request_id_check stFwd "p" "a" "other" rowP respB rfl rfl (by decide)).1,
   (C1_no_request_id_check stFwd "p" "a" "other" rowP respB rfl rfl (by decide)).2⟩

/-- C10 (amended): when the decoded response's payload carries no usable
integer status field, the forward still succeeds; the status defaults to
500, while headers and body are extracted from the payload independently
of the missing status — they default to empty and `None` only when they
are themselves absent or of the wrong shape. -/
theorem C10_default_status (st : Supervisor) (pid rid : String) (p : PluginProcess)
    (v : Json) (h1 : List.lookup pid st.plugins = some p) (h2 : p.enabled = true)
    (h3 : st.sockets.contains p.socket_path = true)
    (hs : (payload_http_field v "status").bind Json.asU64 = none) :
    (forward_http_request st pid rid (IoOutcome.response v)).2 =
      Except.ok (extract_http_response v) ∧
    (extract_http_response v).status = 500 ∧
    (extract_http_response v).headers =
      ((payload_http_field v "headers").bind Json.asStringMap).getD [] ∧
    (extract_http_response v).body = (payload_http_field v "body").bind Json.asStr := by
  refine ⟨?_, ?_, rfl, rfl⟩
  · rw [forward_response_ok st pid rid p v h1 h2 h3]
  · simp [extract_http_response, hs]

/-- The response used against C10: a payload with headers and a body but
no status field at all. -/
def respNoStatus : Json :=
  Json.obj [("message_type", Json.str "http"), ("request_id", Json.str "r"),
    ("payload", Json.obj [("headers", Json.obj [("a", Json.str "b")]),
      ("body", Json.str "x")])]

/-- C10 counterexample: a response whose payload has no status field is
translated with status 500 — but with the payload's headers and body, not
with empty headers and no body as the claim states. -/
theorem C10_counterexample :
    payload_http_field respNoStatus "status" = none ∧
    extract_http_response respNoStatus =
      { status := 500, headers := [("a", "b")], body := some "x" } ∧
    [("a", "b")] ≠ ([] : List (String × String)) ∧
    some "x" ≠ (none : Option String) := by
  refine ⟨rfl, rfl, by decide, by decide⟩

/-- Witness for C10 at the concrete state `stFwd` and response
`respNoStatus`. -/
theorem C10_default_status_witness :
    List.lookup "p" stFwd.plugins = some rowP ∧ rowP.enabled = true ∧
    stFwd.sockets.contains rowP.socket_path = true ∧
    (payload_http_field respNoStatus "status").bind Json.asU64 = none ∧
    (forward_http_request stFwd "p" "a" (IoOutcome.response respNoStatus)).2 =
      Except.ok (extract_http_response respNoStatus) ∧
    (extract_http_response respNoStatus).status = 500 :=
  ⟨rfl, rfl, by decide, rfl,
   (C10_default_status stFwd "p" "a" rowP respNoStatus rfl rfl (by decide) rfl).1,
   (C10_default_status stFwd "p" "a" rowP respNoStatus rfl rfl (by decide) rfl).2.1⟩

/-- C2 (amended): route resolution ignores the `enabled` flag.  For a
path whose first segment passes the traversal checks: when the segment's
route is owned by a registry row with `enabled = false`, the route still
resolves to that plugin and the forward fails with a not-enabled error
which the handler surfaces as 502 Bad Gateway; only a segment matching no
plugin's declared route yields 404.  (A disabled plugin that was never
spawned has no registry row and therefore does fall in the 404 case.) -/
theorem C2_route_resolution (st : Supervisor) (path rid : String) (io : IoOutcome)
    (pid : String) (p : PluginProcess)
    (hseg1 : containsSeq ['.', '.'] (split_once_slash path).1.toList = false)
    (hseg2 : (split_once_slash path).1.toList.contains '/' = false) :
    (get_plugin_for_route st ("/" ++ (split_once_slash path).1) = some pid →
      List.lookup pid st.plugins = some p → p.enabled = false →
      forward_to_plugin_status st path rid io = 502) ∧
    (get_plugin_for_route st ("/" ++ (split_once_slash path).1) = none →
      forward_to_plugin_status st path rid io = 404) := by
  unfold forward_to_plugin_status
  simp only [hseg1, hseg2, Bool.or_self, Bool.false_eq_true, if_false]
  constructor
  · intro h4 h5 h6
    simp only [h4]
    have hfwd : (forward_http_request st pid rid io).2 =
        Except.error ForwardError.notEnabled := by
      unfold forward_http_request
      rw [h5]
      simp [h6]
    rw [hfwd]
  · intro h4
    simp only [h4]

/-- The disabled registry row used against C2: plugin `p` after a
disable, row retained with `enabled = false`. -/
def rowPDis : PluginProcess :=
  { id := "p", process := none, socket_path := socket_path_for "p", enabled := false,
    metadata := some mP, pid := some 7 }

/-- A supervisor whose only plugin `p` is disabled (row retained). -/
def stC2 : Supervisor :=
  { plugins := [("p", rowPDis)], restart_counts := [], max_restarts := 5,
    enable_map := [("p", false)], sockets := [] }

/-- C2 counterexample: the route of the disabled plugin `p` still
resolves to it, and a request under that route answers 502, not the 404
of a route that matches no plugin. -/
theorem C2_counterexample :
    get_plugin_for_route stC2 "/p" = some "p" ∧
    rowPDis.enabled = false ∧
    forward_to_plugin_status stC2 "p/x" "r" IoOutcome.timeout = 502 ∧
    (502 : Nat) ≠ 404 ∧
    forward_to_plugin_status stC2 "q/x" "r" IoOutcome.timeout = 404 := by
  refine ⟨by decide, by decide, by decide, by decide, by decide⟩

/-- Witness for C2 at the concrete state `stC2`: the disabled plugin's
route answers 502, an unknown route answers 404. -/
theorem C2_route_resolution_witness :
    (containsSeq ['.', '.'] (split_once_slash "p/x").1.toList = false ∧
     (split_once_slash "p/x").1.toList.contains '/' = false ∧
     get_plugin_for_route stC2 ("/" ++ (split_once_slash "p/x").1) = some "p" ∧
     List.lookup "p" stC2.plugins = some rowPDis ∧ rowPDis.enabled = false ∧
     forward_to_plugin_status stC2 "p/x" "r" IoOutcome.timeout = 502) ∧
    (containsSeq ['.', '.'] (split_once_slash "q/x").1.toList = false ∧
     (split_once_slash "q/x").1.toList.contains '/' = false ∧
     get_plugin_for_route stC2 ("/" ++ (split_once_slash "q/x").1) = none ∧
     forward_to_plugin_status stC2 "q/x" "r" IoOutcome.timeout = 404) :=
  ⟨⟨by decide, by decide, by decide, rfl, rfl,
    (C2_route_resolution stC2 "p/x" "r" IoOutcome.timeout "p" rowPDis
      (by decide) (by decide)).1 (by decide) rfl rfl⟩,
   ⟨by decide, by decide, by decide,
    (C2_route_resolution stC2 "q/x" "r" IoOutcome.timeout "p" rowPDis
      (by decide) (by decide)).2 (by decide)⟩⟩

/-- C7 (amended): for a forwarded request on which the plugin does not
reply within the 30-second deadline, the forwarder returns the timeout
error and leaves the supervisor state — the registry row included —
unchanged (the plugin is not killed); the route handler maps the error,
as every forwarder error, to 502 Bad Gateway (not 504). -/
theorem C7_timeout_surfaces_502 (st : Supervisor) (path rid pid : String)
    (p : PluginProcess)
    (h1 : List.lookup pid st.plugins = some p) (h2 : p.enabled = true)
    (h3 : st.sockets.contains p.socket_path = true)
    (hseg1 : containsSeq ['.', '.'] (split_once_slash path).1.toList = false)
    (hseg2 : (split_once_slash path).1.toList.contains '/' = false)
    (h4 : get_plugin_for_route st ("/" ++ (split_once_slash path).1) = some pid) :
    forward_http_request st pid rid IoOutcome.timeout =
      (st, Except.error ForwardError.timeoutAfter30s) ∧
    forward_to_plugin_status st path rid IoOutcome.timeout = 502 := by
  have hfwd : forward_http_request st pid rid IoOutcome.timeout =
      (st, Except.error ForwardError.timeoutAfter30s) := by
    unfold forward_http_request
    rw [h1]
    simp only [h2, h3]
    rfl
  refine ⟨hfwd, ?_⟩
  unfold forward_to_plugin_status
  simp only [hseg1, hseg2, Bool.or_self, Bool.false_eq_true, if_false]
  simp only [h4]
  rw [hfwd]

/-- C7 counterexample: on a timeout, the plugin's registry row is
untouched and the caller sees 502, not the claimed 504. -/
theorem C7_counterexample :
    forward_http_request stFwd "p" "r" IoOutcome.timeout =
      (stFwd, Except.error ForwardError.timeoutAfter30s) ∧
    forward_to_plugin_status stFwd "p/x" "r" IoOutcome.timeout = 502 ∧
    (502 : Nat) ≠ 504 := by
  refine ⟨by rfl, by decide, by decide⟩

/-- Witness for C7 at the concrete state `stFwd`. -/
theorem C7_timeout_surfaces_502_witness :
    (List.lookup "p" stFwd.plugins = some rowP ∧ rowP.enabled = true ∧
     stFwd.sockets.contains rowP.socket_path = true ∧
     get_plugin_for_route stFwd ("/" ++ (split_once_slash "p/hello").1) = some "p") ∧
    forward_http_request stFwd "p" "r" IoOutcome.timeout =
      (stFwd, Except.error ForwardError.timeoutAfter30s) ∧
    forward_to_plugin_status stFwd "p/hello" "r" IoOutcome.timeout = 502 :=
  ⟨⟨rfl, rfl, by decide, by decide⟩,
   (C7_timeout_surfaces_502 stFwd "p/hello" "r" "p" rowP rfl rfl (by decide)
     (by decide) (by decide) (by decide)).1,
   (C7_timeout_surfaces_502 stFwd "p/hello" "r" "p" rowP rfl rfl (by decide)
     (by decide) (by decide) (by decide)).2⟩
